import Mathlib

/-!
# Query-key request router of the Training-Module GUI

A shallow embedding of the request router in `GUI/src/main.tsx`: the
functions `defaultQueryFn` and `callApiInstance` decide, from a query key
(an ordered list of string tokens), which backend HTTP client serves a
request, with which method, path, body and response unwrap.

The embedding separates the *routing decision* (a pure value: client,
method, path, body, event-stream header, unwrap rule) from the *execution*
(applying the unwrap to whatever JSON the chosen backend returns).  The
routing decision is exactly what the nested conditionals of the source
compute before the single `await` of the chosen client call.
-/

namespace TrainingModule

/-- JS `String.prototype.startsWith`, used at `main.tsx:18`
(`(queryKey[0] as string).startsWith(endpoint)`): the second string is a
prefix of the first.  Defined on character lists so it evaluates by
kernel reduction. -/
def jsStartsWith (s pre : String) : Bool :=
  pre.toList.isPrefixOf s.toList

/-- Helper for `jsIncludes`: `t` occurs as a contiguous sublist of the
second argument. -/
def hasInfixAux (t : List Char) : List Char → Bool
  | [] => t.isEmpty
  | c :: rest => t.isPrefixOf (c :: rest) || hasInfixAux t rest

/-- JS `String.prototype.includes`, used at `main.tsx:41`
(`(queryKey[0] as string).includes('auth')`): substring containment. -/
def jsIncludes (s t : String) : Bool :=
  hasInfixAux t.toList s.toList

/-- The four backend HTTP clients imported by `main.tsx`: `apiInstance`
(primary CRUD API), `apiDev` (development/staging API, also the SSE
stream), `auth` (authentication service), `apiGeneric` (generic/mocked
passthrough). -/
inductive Client where
  | apiInstance
  | apiDev
  | authClient
  | apiGeneric
deriving DecidableEq, Repr

/-- HTTP method of the outgoing request. -/
inductive Method where
  | get
  | post
deriving DecidableEq, Repr

/-- The JSON request bodies the router builds.  Each constructor is one
of the object literals of the source; the payload is `queryKey[1]`,
which is `none` when the key has no second token (JS `undefined`). -/
inductive ReqBody where
  /-- `{regex: queryKey[1], examples: true}` (`main.tsx:46`). -/
  | regexExamples (v : Option String)
  /-- `{slot: queryKey[1]}` (`main.tsx:59`). -/
  | slot (v : Option String)
  /-- `{form: queryKey[1]}` (`main.tsx:66`). -/
  | form (v : Option String)
  /-- `{story: queryKey[1]}` (`main.tsx:73`). -/
  | story (v : Option String)
  /-- `{rule: queryKey[1]}` (`main.tsx:80`). -/
  | ruleName (v : Option String)
  /-- `{id: queryKey[1]}` (`main.tsx:87`). -/
  | intentsId (v : Option String)
deriving DecidableEq, Repr

/-- The outgoing request a routing decision selects: backend client,
method, path, optional JSON body, and whether the
`Accept: text/event-stream` header is set (only the SSE branch sets
it, `main.tsx:30-33`). -/
structure Request where
  client : Client
  method : Method
  path : String
  body : Option ReqBody
  eventStream : Bool
deriving DecidableEq, Repr

/-- How the router reshapes the response envelope before returning it:
`raw` is `return data`, `response` is `return data?.response` /
`return data.response`, `responseRegexes` is
`return data.response.regexes` (`main.tsx:101`). -/
inductive Unwrap where
  | raw
  | response
  | responseRegexes
deriving DecidableEq, Repr

/-- A complete routing decision: the request to issue and the unwrap to
apply to its response. -/
structure Decision where
  req : Request
  unwrap : Unwrap
deriving DecidableEq, Repr

/-- The static configuration the router reads: `isLocalEnv` is
`import.meta.env.REACT_APP_LOCAL === 'true'` (`main.tsx:17`) and
`mockedEndpoints` is the static prefix list imported from
`services/mocked-endpoints` (`main.tsx:13`). -/
structure Config where
  isLocalEnv : Bool
  mockedEndpoints : List String
deriving DecidableEq, Repr

/-- `queryKey[0] as string`: the first token of the key.  The source
never guards against an empty key; all routed keys are non-empty, and
the claims are stated on non-empty keys. -/
def key0 (queryKey : List String) : String :=
  queryKey.headD ""

/-- `callApiInstance` (`main.tsx:57-105`): the secondary dispatch stage.
Five resource-specific `POST` rules on the primary client, then the
default `GET` on the first token followed by the final unwrap checks
for "entities" and "regexes". -/
def callApiInstance (queryKey : List String) : Decision :=
  if queryKey.contains "slots/slotById" then
    ⟨⟨.apiInstance, .post, key0 queryKey, some (.slot queryKey[1]?), false⟩, .raw⟩
  else if queryKey.contains "forms/formById" then
    ⟨⟨.apiInstance, .post, key0 queryKey, some (.form queryKey[1]?), false⟩, .raw⟩
  else if queryKey.contains "story-by-name" then
    ⟨⟨.apiInstance, .post, key0 queryKey, some (.story queryKey[1]?), false⟩, .response⟩
  else if queryKey.contains "rule-by-name" then
    ⟨⟨.apiInstance, .post, key0 queryKey, some (.ruleName queryKey[1]?), false⟩, .response⟩
  else if queryKey.contains "intents-report" then
    ⟨⟨.apiInstance, .post, key0 queryKey, some (.intentsId queryKey[1]?), false⟩, .response⟩
  else if queryKey.contains "entities" then
    ⟨⟨.apiInstance, .get, key0 queryKey, none, false⟩, .response⟩
  else if queryKey.contains "regexes" then
    ⟨⟨.apiInstance, .get, key0 queryKey, none, false⟩, .responseRegexes⟩
  else
    ⟨⟨.apiInstance, .get, key0 queryKey, none, false⟩, .raw⟩

/-- `defaultQueryFn` (`main.tsx:16-55`): the primary dispatch.  In
order: the local/mocked branch to the generic client, the "settings"
rule, the "prod" rule (with its SSE sub-case), the "auth" substring
rule, the regex/examples `POST`, then fall-through to
`callApiInstance`. -/
def defaultQueryFn (cfg : Config) (queryKey : List String) : Decision :=
  let isLocal := cfg.isLocalEnv && queryKey.contains "prod"
  let isMocked := cfg.mockedEndpoints.any fun endpoint => jsStartsWith (key0 queryKey) endpoint
  if isLocal || isMocked then
    ⟨⟨.apiGeneric, .get, key0 queryKey, none, false⟩, .response⟩
  else if queryKey.contains "settings" then
    ⟨⟨.apiDev, .get, key0 queryKey, none, false⟩, .raw⟩
  else if queryKey.contains "prod" then
    if queryKey.contains "cs-get-all-active-chats" then
      ⟨⟨.apiDev, .get, "sse/" ++ key0 queryKey, none, true⟩, .raw⟩
    else
      ⟨⟨.apiDev, .get, key0 queryKey, none, false⟩, .raw⟩
  else if jsIncludes (key0 queryKey) "auth" then
    ⟨⟨.authClient, .get, key0 queryKey, none, false⟩, .raw⟩
  else if queryKey.contains "regex" && queryKey.contains "examples" then
    ⟨⟨.apiInstance, .post, key0 queryKey, some (.regexExamples queryKey[1]?), false⟩, .response⟩
  else
    callApiInstance queryKey

/-- A minimal JSON value type for response envelopes. -/
inductive Json where
  | null
  | str (s : String)
  | obj (fields : List (String × Json))

/-- Field lookup on a JSON object; `none` models JS `undefined` (absent
field, or a field access on a non-object). -/
def Json.getField : Json → String → Option Json
  | .obj fields, f => (fields.find? fun p => p.1 == f).map Prod.snd
  | _, _ => none

/-- Apply a routing decision's unwrap to a response body.  `none`
models an undefined/failed field access. -/
def applyUnwrap : Unwrap → Json → Option Json
  | .raw, j => some j
  | .response, j => j.getField "response"
  | .responseRegexes, j => (j.getField "response").bind fun r => r.getField "regexes"

/-- End-to-end `resolve`: compute the routing decision for the key,
issue the selected request against a backend (modelled as a function
from requests to response bodies), and apply the decision's unwrap. -/
def resolve (cfg : Config) (queryKey : List String) (backend : Request → Json) : Option Json :=
  applyUnwrap (defaultQueryFn cfg queryKey).unwrap (backend (defaultQueryFn cfg queryKey).req)

/-!
## Theorems

One theorem per claim about the router, with closed witness theorems
instantiating the hypothesised ones at concrete keys and configurations.
-/

/-- C1: for every query key whose first token starts with one of the
configured mocked-endpoint prefixes, the router routes to the
generic/mocked client with a `GET` on the first token and the
`response` unwrap, regardless of any other tokens in the key
(including "settings", "prod" or "auth") and regardless of the
local-mode flag. -/
theorem mocked_prefix_always_routes_generic (cfg : Config) (queryKey : List String)
    (h : ∃ endpoint ∈ cfg.mockedEndpoints, jsStartsWith (key0 queryKey) endpoint = true) :
    defaultQueryFn cfg queryKey =
      ⟨⟨.apiGeneric, .get, key0 queryKey, none, false⟩, .response⟩ := by
  have hm : (cfg.mockedEndpoints.any fun endpoint => jsStartsWith (key0 queryKey) endpoint) = true :=
    List.any_eq_true.mpr h
  simp [defaultQueryFn, hm]

/-- Witness for C1: first token "mock/endpoint" matches prefix "mock"
while the key also carries "settings", "prod" and "auth" and the
local-mode flag is set; the mocked rule still wins. -/
theorem mocked_prefix_always_routes_generic_witness :
    defaultQueryFn ⟨true, ["mock"]⟩ ["mock/endpoint", "settings", "prod", "auth"] =
      ⟨⟨.apiGeneric, .get, "mock/endpoint", none, false⟩, .response⟩ :=
  mocked_prefix_always_routes_generic _ _ ⟨"mock", by decide, by decide⟩

/-- C2: a query key containing both "settings" and "prod" that matches
no mocked prefix and does not trigger the local-mode branch resolves
via the "settings" rule — a plain `GET` on the first token through the
staged client, raw body — never via the "prod" rule. -/
theorem settings_rule_precedes_prod (cfg : Config) (queryKey : List String)
    (hLocal : cfg.isLocalEnv = false)
    (hMock : (cfg.mockedEndpoints.any fun endpoint => jsStartsWith (key0 queryKey) endpoint) = false)
    (hSettings : "settings" ∈ queryKey)
    (hProd : "prod" ∈ queryKey) :
    defaultQueryFn cfg queryKey = ⟨⟨.apiDev, .get, key0 queryKey, none, false⟩, .raw⟩ := by
  simp [defaultQueryFn, hLocal, hMock, hSettings]

/-- Witness for C2 at key `["resource", "settings", "prod"]`. -/
theorem settings_rule_precedes_prod_witness :
    defaultQueryFn ⟨false, []⟩ ["resource", "settings", "prod"] =
      ⟨⟨.apiDev, .get, "resource", none, false⟩, .raw⟩ :=
  settings_rule_precedes_prod _ _ rfl (by decide) (by decide) (by decide)

/-- C3 counterexample: the key
`["cs-get-all-active-chats", "prod", "settings"]` contains both "prod"
and "cs-get-all-active-chats", yet the router issues a plain `GET` on
the first token (no `sse/` path, no event-stream header) because the
"settings" rule fires first — refuting "never a plain GET" as stated. -/
theorem prod_chats_settings_plain_get_cex :
    ("prod" ∈ (["cs-get-all-active-chats", "prod", "settings"] : List String)) ∧
    ("cs-get-all-active-chats" ∈ (["cs-get-all-active-chats", "prod", "settings"] : List String)) ∧
    defaultQueryFn ⟨false, []⟩ ["cs-get-all-active-chats", "prod", "settings"] =
      ⟨⟨.apiDev, .get, "cs-get-all-active-chats", none, false⟩, .raw⟩ := by
  decide

/-- C3 (amended): for every key containing both "prod" and
"cs-get-all-active-chats" that matches no mocked prefix, does not
trigger the local-mode branch and does not contain "settings", the
router issues the streaming request — `GET` on `sse/` prepended to the
first token via the staged client with the event-stream header — and
not a plain `GET`. -/
theorem prod_chats_streaming_when_unpreempted (cfg : Config) (queryKey : List String)
    (hLocal : cfg.isLocalEnv = false)
    (hMock : (cfg.mockedEndpoints.any fun endpoint => jsStartsWith (key0 queryKey) endpoint) = false)
    (hSettings : "settings" ∉ queryKey)
    (hProd : "prod" ∈ queryKey)
    (hChats : "cs-get-all-active-chats" ∈ queryKey) :
    defaultQueryFn cfg queryKey =
      ⟨⟨.apiDev, .get, "sse/" ++ key0 queryKey, none, true⟩, .raw⟩ := by
  simp [defaultQueryFn, hLocal, hMock, hSettings, hProd, hChats]

/-- Witness for amended C3 at key `["cs-get-all-active-chats", "prod"]`. -/
theorem prod_chats_streaming_when_unpreempted_witness :
    defaultQueryFn ⟨false, []⟩ ["cs-get-all-active-chats", "prod"] =
      ⟨⟨.apiDev, .get, "sse/cs-get-all-active-chats", none, true⟩, .raw⟩ :=
  prod_chats_streaming_when_unpreempted _ _ rfl (by decide) (by decide) (by decide) (by decide)

/-- C4 counterexample: the key `["entities", "prod"]` contains both
"prod" and "entities" and matches no earlier rule, yet the routing
decision's unwrap is `raw`, not `response`: the "prod" branch returns
the raw body and the "entities" unwrap is never reached. -/
theorem prod_entities_raw_cex :
    ("prod" ∈ (["entities", "prod"] : List String)) ∧
    ("entities" ∈ (["entities", "prod"] : List String)) ∧
    (defaultQueryFn ⟨false, []⟩ ["entities", "prod"]).unwrap = .raw ∧
    (defaultQueryFn ⟨false, []⟩ ["entities", "prod"]).unwrap ≠ .response := by
  decide

/-- C4 (amended): for every key containing both "prod" and "entities"
that matches no earlier rule (no mocked prefix, no local-mode trigger,
no "settings", no "cs-get-all-active-chats"), the router dispatches via
the "prod" rule — plain `GET` on the first token via the staged
client — and returns the raw body; the "entities" unwrap does not
apply. -/
theorem prod_entities_routes_prod_raw (cfg : Config) (queryKey : List String)
    (hLocal : cfg.isLocalEnv = false)
    (hMock : (cfg.mockedEndpoints.any fun endpoint => jsStartsWith (key0 queryKey) endpoint) = false)
    (hSettings : "settings" ∉ queryKey)
    (hProd : "prod" ∈ queryKey)
    (hChats : "cs-get-all-active-chats" ∉ queryKey)
    (hEntities : "entities" ∈ queryKey) :
    defaultQueryFn cfg queryKey = ⟨⟨.apiDev, .get, key0 queryKey, none, false⟩, .raw⟩ := by
  simp [defaultQueryFn, hLocal, hMock, hSettings, hProd, hChats]

/-- Witness for amended C4 at key `["entities", "prod"]`. -/
theorem prod_entities_routes_prod_raw_witness :
    defaultQueryFn ⟨false, []⟩ ["entities", "prod"] =
      ⟨⟨.apiDev, .get, "entities", none, false⟩, .raw⟩ :=
  prod_entities_routes_prod_raw _ _ rfl (by decide) (by decide) (by decide) (by decide) (by decide)

/-- C5 counterexample: at key `["slots/slotById", "greet_slot"]` the
secondary stage issues the `POST` with body `{slot: "greet_slot"}` but
returns the raw body (`return data`), not the envelope's `response`
field. -/
theorem slotById_raw_cex :
    callApiInstance ["slots/slotById", "greet_slot"] =
      ⟨⟨.apiInstance, .post, "slots/slotById", some (.slot (some "greet_slot")), false⟩, .raw⟩ ∧
    (callApiInstance ["slots/slotById", "greet_slot"]).unwrap ≠ .response := by
  decide

/-- C5 (amended): every key containing "slots/slotById" that reaches
the secondary dispatch stage yields a `POST` to the first token via the
primary client with body `{slot: key[1]}`, returning the raw body (no
`response` unwrap). -/
theorem slotById_post_raw_body (queryKey : List String)
    (h : "slots/slotById" ∈ queryKey) :
    callApiInstance queryKey =
      ⟨⟨.apiInstance, .post, key0 queryKey, some (.slot queryKey[1]?), false⟩, .raw⟩ := by
  simp [callApiInstance, h]

/-- Witness for amended C5 at key `["slots/slotById", "greet_slot"]`. -/
theorem slotById_post_raw_body_witness :
    callApiInstance ["slots/slotById", "greet_slot"] =
      ⟨⟨.apiInstance, .post, "slots/slotById", some (.slot (some "greet_slot")), false⟩, .raw⟩ :=
  slotById_post_raw_body _ (by decide)

/-- C6: on the default `GET` of the secondary stage (no resource-specific
`POST` token matches), the final unwrap is: `response` when the key
contains "entities", else `response.regexes` when it contains
"regexes", else the raw body. -/
theorem default_get_final_unwrap (queryKey : List String)
    (h1 : "slots/slotById" ∉ queryKey)
    (h2 : "forms/formById" ∉ queryKey)
    (h3 : "story-by-name" ∉ queryKey)
    (h4 : "rule-by-name" ∉ queryKey)
    (h5 : "intents-report" ∉ queryKey) :
    callApiInstance queryKey =
      ⟨⟨.apiInstance, .get, key0 queryKey, none, false⟩,
        if "entities" ∈ queryKey then .response
        else if "regexes" ∈ queryKey then .responseRegexes
        else .raw⟩ := by
  by_cases hE : "entities" ∈ queryKey <;> by_cases hR : "regexes" ∈ queryKey <;>
    simp [callApiInstance, h1, h2, h3, h4, h5, hE, hR]

/-- Witness for C6: key `["entities"]` on the default `GET` path yields
the `response` unwrap, not the raw envelope. -/
theorem default_get_final_unwrap_witness :
    callApiInstance ["entities"] =
      ⟨⟨.apiInstance, .get, "entities", none, false⟩, .response⟩ :=
  default_get_final_unwrap ["entities"] (by decide) (by decide) (by decide) (by decide) (by decide)

/-- C7: a non-empty key matching no mocked prefix, no special-token
rule and no secondary-stage resource pattern still resolves: it falls
through to a plain `GET` on the first token via the primary client with
the raw body — the router has no unroutable-key error outcome. -/
theorem no_rule_fallback_get (cfg : Config) (queryKey : List String)
    (hne : queryKey ≠ [])
    (hMock : (cfg.mockedEndpoints.any fun endpoint => jsStartsWith (key0 queryKey) endpoint) = false)
    (hSettings : "settings" ∉ queryKey)
    (hProd : "prod" ∉ queryKey)
    (hAuth : jsIncludes (key0 queryKey) "auth" = false)
    (hRegex : ¬("regex" ∈ queryKey ∧ "examples" ∈ queryKey))
    (h1 : "slots/slotById" ∉ queryKey)
    (h2 : "forms/formById" ∉ queryKey)
    (h3 : "story-by-name" ∉ queryKey)
    (h4 : "rule-by-name" ∉ queryKey)
    (h5 : "intents-report" ∉ queryKey)
    (hEntities : "entities" ∉ queryKey)
    (hRegexes : "regexes" ∉ queryKey) :
    defaultQueryFn cfg queryKey =
      ⟨⟨.apiInstance, .get, key0 queryKey, none, false⟩, .raw⟩ := by
  simp [defaultQueryFn, callApiInstance, hMock, hSettings, hProd, hAuth, hRegex,
    h1, h2, h3, h4, h5, hEntities, hRegexes]

/-- Witness for C7 at key `["unknown-resource"]` (local flag set, no
mocked prefixes). -/
theorem no_rule_fallback_get_witness :
    defaultQueryFn ⟨true, []⟩ ["unknown-resource"] =
      ⟨⟨.apiInstance, .get, "unknown-resource", none, false⟩, .raw⟩ :=
  no_rule_fallback_get _ _ (by decide) (by decide) (by decide) (by decide) (by decide)
    (by decide) (by decide) (by decide) (by decide) (by decide) (by decide) (by decide)
    (by decide)

/-- C8: the router is deterministic — under a fixed configuration, two
invocations with identical keys compute the same routing decision
(client, method, path, body, unwrap), and the resolved payload depends
on nothing but the key, the configuration, and the backend's response
to the one selected request: backends agreeing on that request give the
same result. -/
theorem resolve_deterministic (cfg : Config) (queryKey1 queryKey2 : List String)
    (backend1 backend2 : Request → Json)
    (hkey : queryKey1 = queryKey2)
    (hresp : backend1 (defaultQueryFn cfg queryKey1).req = backend2 (defaultQueryFn cfg queryKey2).req) :
    defaultQueryFn cfg queryKey1 = defaultQueryFn cfg queryKey2 ∧
    resolve cfg queryKey1 backend1 = resolve cfg queryKey2 backend2 := by
  subst hkey
  refine ⟨rfl, ?_⟩
  simp only [resolve, hresp]

/-- Witness for C8: two distinct backends that agree on the single
request selected for key `["entities"]` resolve to the same payload. -/
theorem resolve_deterministic_witness :
    defaultQueryFn ⟨false, []⟩ ["entities"] = defaultQueryFn ⟨false, []⟩ ["entities"] ∧
    resolve ⟨false, []⟩ ["entities"] (fun _ => Json.obj [("response", Json.str "a")]) =
      resolve ⟨false, []⟩ ["entities"]
        (fun req => match req.method with
          | .get => Json.obj [("response", Json.str "a")]
          | .post => Json.null) :=
  resolve_deterministic _ _ _ _ _ rfl rfl

/-- C9: in the final unwrap of the default `GET` path, the "entities"
check precedes the "regexes" check — a key containing both tokens gets
the `response` unwrap, never `response.regexes`. -/
theorem entities_unwrap_precedes_regexes (queryKey : List String)
    (h1 : "slots/slotById" ∉ queryKey)
    (h2 : "forms/formById" ∉ queryKey)
    (h3 : "story-by-name" ∉ queryKey)
    (h4 : "rule-by-name" ∉ queryKey)
    (h5 : "intents-report" ∉ queryKey)
    (hE : "entities" ∈ queryKey)
    (hR : "regexes" ∈ queryKey) :
    callApiInstance queryKey = ⟨⟨.apiInstance, .get, key0 queryKey, none, false⟩, .response⟩ ∧
    (callApiInstance queryKey).unwrap ≠ .responseRegexes := by
  have heq : callApiInstance queryKey =
      ⟨⟨.apiInstance, .get, key0 queryKey, none, false⟩, .response⟩ := by
    simp [callApiInstance, h1, h2, h3, h4, h5, hE]
  exact ⟨heq, by simp [heq]⟩

/-- Witness for C9 at key `["entities", "regexes"]`. -/
theorem entities_unwrap_precedes_regexes_witness :
    callApiInstance ["entities", "regexes"] =
      ⟨⟨.apiInstance, .get, "entities", none, false⟩, .response⟩ ∧
    (callApiInstance ["entities", "regexes"]).unwrap ≠ .responseRegexes :=
  entities_unwrap_precedes_regexes _ (by decide) (by decide) (by decide) (by decide)
    (by decide) (by decide) (by decide)

/-- C10: the router never checks that the positional argument exists —
for each single-token key matching a secondary-stage `POST` rule, the
`POST` is still issued with the absent (`none`, JS `undefined`) value
of `queryKey[1]` in the body, and the access raises no error. -/
theorem single_token_post_rules_absent_arg :
    callApiInstance ["slots/slotById"] =
      ⟨⟨.apiInstance, .post, "slots/slotById", some (.slot none), false⟩, .raw⟩ ∧
    callApiInstance ["forms/formById"] =
      ⟨⟨.apiInstance, .post, "forms/formById", some (.form none), false⟩, .raw⟩ ∧
    callApiInstance ["story-by-name"] =
      ⟨⟨.apiInstance, .post, "story-by-name", some (.story none), false⟩, .response⟩ ∧
    callApiInstance ["rule-by-name"] =
      ⟨⟨.apiInstance, .post, "rule-by-name", some (.ruleName none), false⟩, .response⟩ ∧
    callApiInstance ["intents-report"] =
      ⟨⟨.apiInstance, .post, "intents-report", some (.intentsId none), false⟩, .response⟩ := by
  decide

end TrainingModule
